import Mathlib

/-!
Verification development for the single-file dashboard application
`typing_metric2.py` (a Bloomberg-like stock terminal built on Dash,
yfinance, pandas and plotly).

The embedding models the three core components the specification names:

* `get_stock_data`  — MarketDataClient.fetch: wraps the external provider
  (yfinance), returning a historical series and a snapshot-metrics table,
  with a try/except that converts any provider exception into a pair of
  empty dataframes.
* `generate_metric_graph` / `buildFig` — ChartRenderer: builds a plotly
  figure from the fetched series, dispatching on the chart-type string,
  with a missing-metric placeholder branch.
* `update_graphs` — DashboardController: the Dash callback, returning four
  figures and the metrics-table rows.

The external provider is modelled as an explicit `Provider` record of
(possibly failing) functions; Python exceptions are modelled as `Except`.
A fetch-call counter is threaded through the controller layer explicitly,
so that claims about the number of provider calls are statable.
-/

namespace TypingMetric2

/-- Numeric cell values of the provider's dataframes. -/
abbrev Value := Int

/-- One row of a historical dataframe: a date index plus named cells. -/
structure SeriesRow where
  date : Nat
  cells : List (String × Value)
deriving DecidableEq, Repr

/-- A pandas-DataFrame-like historical series: its column names and rows.
`pd.DataFrame()` (the empty dataframe) has no columns and no rows. -/
structure Series where
  cols : List String
  rows : List SeriesRow
deriving DecidableEq, Repr

/-- The empty dataframe `pd.DataFrame()`. -/
def emptySeries : Series := ⟨[], []⟩

/-- Cell lookup inside one row (a present column whose cell is absent reads 0;
the witnesses and counterexamples below only use consistent frames). -/
def lookupCell (cells : List (String × Value)) (c : String) : Value :=
  match cells.find? (fun kv => kv.1 == c) with
  | some kv => kv.2
  | none => 0

/-- The dataframe index `stock_data.index`: the list of dates. -/
def Series.index (s : Series) : List Nat :=
  s.rows.map (fun r => r.date)

/-- Column access `stock_data[c]`: pandas raises `KeyError(c)` when `c` is not
a column, modelled as `Except.error c`. -/
def Series.getCol (s : Series) (c : String) : Except String (List Value) :=
  if c ∈ s.cols then Except.ok (s.rows.map (fun r => lookupCell r.cells c))
  else Except.error c

/-- A metrics-table cell: either a numeric value from `stock.info`, or the
string sentinel that `dict.get(key, 'N/A')` substitutes for a missing key. -/
inductive Cell where
  | num : Value → Cell
  | na : Cell
deriving DecidableEq, Repr

/-- The external market-data provider (yfinance), out of scope of the
repository: `history` models `stock.history(start=..., end=...)` and `info`
models the `stock.info` mapping; either may raise, modelled as `Except`. -/
structure Provider where
  history : String → Nat → Nat → Except String Series
  info : String → Except String (List (String × Value))

/-- `stock.info.get(k, 'N/A')`. -/
def infoGet (inf : List (String × Value)) (k : String) : Cell :=
  match inf.find? (fun kv => kv.1 == k) with
  | some kv => Cell.num kv.2
  | none => Cell.na

/-- The eight canonical metrics rows, paired with the `stock.info` key each
one reads, in the order the `metrics` dict literal lists them. -/
def canonicalKeys : List (String × String) :=
  [("Open", "open"), ("Close", "previousClose"), ("High", "dayHigh"),
   ("Low", "dayLow"), ("Volume", "volume"), ("Market Cap", "marketCap"),
   ("PE Ratio", "trailingPE"), ("Dividend Yield", "dividendYield")]

/-- The `metrics` dict of `get_stock_data` rendered as the
`pd.DataFrame(metrics.items(), columns=['Metric', 'Value'])` rows. -/
def snapshotMetrics (inf : List (String × Value)) : List (String × Cell) :=
  canonicalKeys.map (fun kv => (kv.1, infoGet inf kv.2))

/-- `get_stock_data(ticker, start_date, end_date)`: fetches the history and
builds the metrics table inside a try; any provider exception is caught and
converted into two empty dataframes. -/
def get_stock_data (p : Provider) (ticker : String)
    (start_date end_date : Nat) : Series × List (String × Cell) :=
  match p.history ticker start_date end_date with
  | Except.error _ => (emptySeries, [])
  | Except.ok hist =>
    match p.info ticker with
    | Except.error _ => (emptySeries, [])
    | Except.ok inf => (hist, snapshotMetrics inf)

/-- The `metric_options` dropdown list: label and value of each entry. -/
def metric_options : List (String × String) :=
  [("Open Price", "Open"), ("Close Price", "Close"), ("Day High", "High"),
   ("Day Low", "Low"), ("Volume", "Volume"), ("Market Cap", "Market Cap"),
   ("PE Ratio", "PE Ratio"), ("Dividend Yield", "Dividend Yield")]

/-- The `chart_type_options` dropdown list: label and value of each entry. -/
def chart_type_options : List (String × String) :=
  [("Line", "lines"), ("Bar", "bars"), ("Scatter", "markers"),
   ("Bubble", "bubble"), ("Candlestick", "candlestick"),
   ("Choropleth Map", "choropleth")]

/-- A plotly trace, as added by the chart-type branches: `go.Scatter` with a
mode string, `go.Bar`, the bubble variant of `go.Scatter` (marker sizes taken
from the Volume column), and `go.Candlestick` with its two line colors. -/
inductive Trace where
  | scatter : List Nat → List Value → String → String → Trace
  | bar : List Nat → List Value → String → Trace
  | bubble : List Nat → List Value → List Value → String → Trace
  | candlestick : List Nat → List Value → List Value → List Value →
      List Value → String → String → Trace
deriving DecidableEq, Repr

/-- The layout fields of a `go.Figure` that the code sets: every field is
`none` on a bare `go.Figure()` and is set by `fig.update_layout`. -/
structure Fig where
  traces : List Trace
  title : Option String
  plot_bgcolor : Option String
  paper_bgcolor : Option String
  font_color : Option String
  xaxis_title : Option String
  yaxis_title : Option String
  height : Option Nat
deriving DecidableEq, Repr

/-- The theme colors the rendering code reads. -/
structure Theme where
  background : String
  text : String
  plot_bg : String
  line : String
deriving DecidableEq, Repr

/-- The `theme` dict (the four keys the core logic reads). -/
def theme : Theme := ⟨"#121212", "#F5F5F5", "#1a1a1a", "#00CED1"⟩

deriving instance DecidableEq for Except

/-- A bare `go.Figure()` with no traces and no layout set. -/
def emptyFig : Fig := ⟨[], none, none, none, none, none, none, none⟩

/-- The figure produced by the `else` branch of `generate_metric_graph`:
no traces, the no-data title, theme colors, no axis titles, height 400. -/
def placeholderFig (metric ticker : String) : Fig :=
  ⟨[], some ("No data available for " ++ metric ++ " of " ++ ticker),
   some theme.plot_bg, some theme.background, some theme.text,
   none, none, some 400⟩

/-- The figure produced by the `if metric in stock_data.columns` branch:
the traces added by the chart-type dispatch, the "{metric} for {ticker}"
title, theme colors, axis titles, height 400. -/
def dataFig (traces : List Trace) (metric ticker : String) : Fig :=
  ⟨traces, some (metric ++ " for " ++ ticker),
   some theme.plot_bg, some theme.background, some theme.text,
   some "Time", some metric, some 400⟩

/-- The figure-construction body of `generate_metric_graph`, applied to the
already-fetched series. Column accesses outside the `metric in columns`
guard (the bubble branch's Volume lookup, the candlestick branch's four
OHLC lookups) can raise a pandas `KeyError`, which nothing catches: the
result is `Except`. An unrecognized chart-type string (and `choropleth`,
which no branch handles) adds no trace but still receives the data layout. -/
def buildFig (stock_data : Series) (ticker metric chart_type : String) :
    Except String Fig :=
  if metric ∈ stock_data.cols then
    match
      (if chart_type == "lines" then
        (stock_data.getCol metric).map (fun y =>
          [Trace.scatter stock_data.index y "lines" theme.line])
      else if chart_type == "bars" then
        (stock_data.getCol metric).map (fun y =>
          [Trace.bar stock_data.index y theme.line])
      else if chart_type == "markers" then
        (stock_data.getCol metric).map (fun y =>
          [Trace.scatter stock_data.index y "markers" theme.line])
      else if chart_type == "bubble" then
        (stock_data.getCol metric).bind (fun y =>
          (stock_data.getCol "Volume").map (fun sizes =>
            [Trace.bubble stock_data.index y sizes theme.line]))
      else if chart_type == "candlestick" then
        (stock_data.getCol "Open").bind (fun vOpen =>
          (stock_data.getCol "High").bind (fun vHigh =>
            (stock_data.getCol "Low").bind (fun vLow =>
              (stock_data.getCol "Close").map (fun vClose =>
                [Trace.candlestick stock_data.index vOpen vHigh vLow vClose
                  "green" "red"]))))
      else Except.ok [])
    with
    | Except.error e => Except.error e
    | Except.ok traces => Except.ok (dataFig traces metric ticker)
  else
    Except.ok (placeholderFig metric ticker)

/-- `generate_metric_graph(ticker, metric, chart_type, start_date, end_date)`:
fetches the data itself via `get_stock_data` (one provider fetch per call,
counted in the threaded counter) and builds the figure. -/
def generate_metric_graph (p : Provider) (ticker metric chart_type : String)
    (start_date end_date : Nat) (calls : Nat) : Except String Fig × Nat :=
  let fetched := get_stock_data p ticker start_date end_date
  (buildFig fetched.1 ticker metric chart_type, calls + 1)

/-- `update_graphs(ticker, start_date, end_date, *args)`: the Dash callback.
`args` carries the four metric dropdown values followed by the four
chart-type dropdown values. When the ticker is falsy it returns four bare
figures and an empty table without fetching. Otherwise the list
comprehension renders the four panels in order, each render performing its
own fetch, and then one more fetch builds the metrics table. An uncaught
column-access error raised while building a panel's figure aborts the
comprehension: the later panels and the table fetch never run and the error
propagates out of the callback, modelled as an `Except.error` result; the
call counter still records the fetches performed before the abort (each
panel's fetch precedes its figure build). The source returns the idle result
as a `([fig] * 4, [])` tuple and the populated result as a flat five-element
list; both are modelled here as the pair (list of four figures, table
rows). -/
def update_graphs (p : Provider) (ticker : String) (start_date end_date : Nat)
    (args : List String) (calls : Nat) :
    Except String (List Fig × List (String × Cell)) × Nat :=
  if ticker = "" then
    (Except.ok ([emptyFig, emptyFig, emptyFig, emptyFig], []), calls)
  else
    let metric_values := args.take 4
    let chart_values := args.drop 4
    let f0 := generate_metric_graph p ticker (metric_values.getD 0 "")
      (chart_values.getD 0 "") start_date end_date calls
    match f0.1 with
    | Except.error e => (Except.error e, f0.2)
    | Except.ok g0 =>
      let f1 := generate_metric_graph p ticker (metric_values.getD 1 "")
        (chart_values.getD 1 "") start_date end_date f0.2
      match f1.1 with
      | Except.error e => (Except.error e, f1.2)
      | Except.ok g1 =>
        let f2 := generate_metric_graph p ticker (metric_values.getD 2 "")
          (chart_values.getD 2 "") start_date end_date f1.2
        match f2.1 with
        | Except.error e => (Except.error e, f2.2)
        | Except.ok g2 =>
          let f3 := generate_metric_graph p ticker (metric_values.getD 3 "")
            (chart_values.getD 3 "") start_date end_date f2.2
          match f3.1 with
          | Except.error e => (Except.error e, f3.2)
          | Except.ok g3 =>
            let tbl := get_stock_data p ticker start_date end_date
            (Except.ok ([g0, g1, g2, g3], tbl.2), f3.2 + 1)

/-! Concrete providers and series used by witnesses and counterexamples. -/

/-- A two-day OHLCV series as the real provider returns for a known symbol. -/
def sampleSeries : Series :=
  ⟨["Open", "High", "Low", "Close", "Volume"],
   [⟨0, [("Open", 10), ("High", 15), ("Low", 9), ("Close", 12),
         ("Volume", 1000)]⟩,
    ⟨1, [("Open", 12), ("High", 18), ("Low", 11), ("Close", 17),
         ("Volume", 1500)]⟩]⟩

/-- A provider that succeeds, with an info mapping that lacks the market-cap,
PE-ratio and dividend-yield keys. -/
def okProvider : Provider :=
  ⟨fun _ _ _ => Except.ok sampleSeries,
   fun _ => Except.ok [("open", 10), ("previousClose", 12), ("dayHigh", 15),
     ("dayLow", 9), ("volume", 1000)]⟩

/-- A provider whose every call raises (network failure / unknown symbol). -/
def failProvider : Provider :=
  ⟨fun _ _ _ => Except.error "network", fun _ => Except.error "network"⟩

/-- A provider that always returns the empty series and an empty info map. -/
def emptyProvider : Provider :=
  ⟨fun _ _ _ => Except.ok emptySeries, fun _ => Except.ok []⟩

/-- A non-empty series whose only column is Close (no Open/High/Low/Volume). -/
def closeOnlySeries : Series :=
  ⟨["Close"], [⟨0, [("Close", 10)]⟩, ⟨1, [("Close", 11)]⟩]⟩

/-- The default dropdown values of the four panels: Close / lines. -/
def default_args : List String :=
  ["Close", "Close", "Close", "Close", "lines", "lines", "lines", "lines"]

/-! Claim theorems. -/

/-- C6: when the symbol is empty (the falsy ticker, Idle state), the callback
returns four bare figures and an empty metrics table and performs zero fetch
calls: the call counter comes back unchanged. -/
theorem idle_no_fetch (p : Provider) (start_date end_date : Nat)
    (args : List String) (calls : Nat) :
    update_graphs p "" start_date end_date args calls =
      (Except.ok ([emptyFig, emptyFig, emptyFig, emptyFig], []), calls) := by
  rfl

/-- C10: with an empty symbol the visible output of the callback is one fixed
value — four bare figures and an empty table — identical across any two runs,
whatever the provider, the date range, the panel selections or the prior call
count; none of those inputs interferes with the Idle output. -/
theorem idle_output_fixed (p1 p2 : Provider) (d1 e1 d2 e2 : Nat)
    (a1 a2 : List String) (c1 c2 : Nat) :
    (update_graphs p1 "" d1 e1 a1 c1).1 = (update_graphs p2 "" d2 e2 a2 c2).1 ∧
    (update_graphs p1 "" d1 e1 a1 c1).1 =
      Except.ok ([emptyFig, emptyFig, emptyFig, emptyFig], []) := by
  exact ⟨rfl, rfl⟩

/-- C1 counterexample: on the provider-failure path `get_stock_data` returns
an empty metrics dataframe — zero rows, not the claimed eight sentinel-filled
rows. -/
theorem fetch_failure_metrics_not_eight :
    (get_stock_data failProvider "AAPL" 0 1).2 = [] ∧
    (get_stock_data failProvider "AAPL" 0 1).2.length ≠ 8 := by
  exact ⟨rfl, by decide⟩

/-- C1 (amended): `get_stock_data` is total (a Lean function: no exception
escapes), and its metrics result is either — when the provider's history and
info calls both succeed — exactly the eight canonical rows in order, with the
`N/A` sentinel exactly on the keys the provider's info lacks, or — on the
provider-failure path — the empty dataframe pair, whose metrics table has
zero rows. -/
theorem fetch_metrics_shape (p : Provider) (t : String) (ds de : Nat) :
    (∃ hist inf, p.history t ds de = Except.ok hist ∧
      p.info t = Except.ok inf ∧
      get_stock_data p t ds de = (hist, snapshotMetrics inf) ∧
      (get_stock_data p t ds de).2.length = 8 ∧
      (get_stock_data p t ds de).2.map Prod.fst =
        ["Open", "Close", "High", "Low", "Volume", "Market Cap", "PE Ratio",
         "Dividend Yield"] ∧
      (∀ nk, nk ∈ canonicalKeys →
        inf.find? (fun kv => kv.1 == nk.2) = none →
        (nk.1, Cell.na) ∈ (get_stock_data p t ds de).2)) ∨
    get_stock_data p t ds de = (emptySeries, []) := by
  rcases hh : p.history t ds de with e | hist
  · right; simp [get_stock_data, hh]
  · rcases hi : p.info t with e2 | inf
    · right; simp [get_stock_data, hh, hi]
    · left
      refine ⟨hist, inf, rfl, rfl, ?_, ?_, ?_, ?_⟩
      · simp [get_stock_data, hh, hi]
      · simp [get_stock_data, hh, hi, snapshotMetrics, canonicalKeys]
      · simp [get_stock_data, hh, hi, snapshotMetrics, canonicalKeys]
      · intro nk hnk hf
        simp [canonicalKeys] at hnk
        rcases hnk with rfl | rfl | rfl | rfl | rfl | rfl | rfl | rfl <;>
          simp [get_stock_data, hh, hi, snapshotMetrics, canonicalKeys,
            infoGet, hf]

/-- C2 counterexample: one recomputation of the populated callback performs
five provider fetches — one inside each of the four `generate_metric_graph`
calls plus one more for the metrics table — not the single shared fetch the
claim states. -/
theorem populated_five_fetches_concrete :
    (update_graphs okProvider "AAPL" 0 10 default_args 0).2 = 5 ∧
    (update_graphs okProvider "AAPL" 0 10 default_args 0).2 ≠ 1 := by
  exact ⟨rfl, by decide⟩

/-- C2 (amended): a recomputation with a non-empty symbol performs one fetch
per panel render it attempts plus one for the metrics table — never a single
shared fetch. When no panel's figure build raises, exactly five fetch calls
occur (so changing only one panel's selection still costs five fresh
fetches), the renderer runs once per panel with that panel's own
metric/chart-type selection over an identical fetched series, and the table
comes from the final fetch. When a panel's figure build raises an uncaught
column error, the recomputation aborts with that error after one fetch per
panel up to and including the raising one, and the table fetch never runs. -/
theorem populated_fetch_count_and_renders (p : Provider) (t : String)
    (ds de : Nat) (args : List String) (calls : Nat) (ht : t ≠ "") :
    (∀ g0 g1 g2 g3,
      buildFig (get_stock_data p t ds de).1 t ((args.take 4).getD 0 "")
        ((args.drop 4).getD 0 "") = Except.ok g0 →
      buildFig (get_stock_data p t ds de).1 t ((args.take 4).getD 1 "")
        ((args.drop 4).getD 1 "") = Except.ok g1 →
      buildFig (get_stock_data p t ds de).1 t ((args.take 4).getD 2 "")
        ((args.drop 4).getD 2 "") = Except.ok g2 →
      buildFig (get_stock_data p t ds de).1 t ((args.take 4).getD 3 "")
        ((args.drop 4).getD 3 "") = Except.ok g3 →
      update_graphs p t ds de args calls =
        (Except.ok ([g0, g1, g2, g3], (get_stock_data p t ds de).2),
         calls + 5)) ∧
    (∀ e,
      buildFig (get_stock_data p t ds de).1 t ((args.take 4).getD 0 "")
        ((args.drop 4).getD 0 "") = Except.error e →
      update_graphs p t ds de args calls = (Except.error e, calls + 1)) ∧
    (∀ g0 e,
      buildFig (get_stock_data p t ds de).1 t ((args.take 4).getD 0 "")
        ((args.drop 4).getD 0 "") = Except.ok g0 →
      buildFig (get_stock_data p t ds de).1 t ((args.take 4).getD 1 "")
        ((args.drop 4).getD 1 "") = Except.error e →
      update_graphs p t ds de args calls = (Except.error e, calls + 2)) ∧
    (∀ g0 g1 e,
      buildFig (get_stock_data p t ds de).1 t ((args.take 4).getD 0 "")
        ((args.drop 4).getD 0 "") = Except.ok g0 →
      buildFig (get_stock_data p t ds de).1 t ((args.take 4).getD 1 "")
        ((args.drop 4).getD 1 "") = Except.ok g1 →
      buildFig (get_stock_data p t ds de).1 t ((args.take 4).getD 2 "")
        ((args.drop 4).getD 2 "") = Except.error e →
      update_graphs p t ds de args calls = (Except.error e, calls + 3)) ∧
    (∀ g0 g1 g2 e,
      buildFig (get_stock_data p t ds de).1 t ((args.take 4).getD 0 "")
        ((args.drop 4).getD 0 "") = Except.ok g0 →
      buildFig (get_stock_data p t ds de).1 t ((args.take 4).getD 1 "")
        ((args.drop 4).getD 1 "") = Except.ok g1 →
      buildFig (get_stock_data p t ds de).1 t ((args.take 4).getD 2 "")
        ((args.drop 4).getD 2 "") = Except.ok g2 →
      buildFig (get_stock_data p t ds de).1 t ((args.take 4).getD 3 "")
        ((args.drop 4).getD 3 "") = Except.error e →
      update_graphs p t ds de args calls = (Except.error e, calls + 4)) := by
  refine ⟨?_, ?_, ?_, ?_, ?_⟩
  · intro g0 g1 g2 g3 h0 h1 h2 h3
    simp only [update_graphs, generate_metric_graph, if_neg ht, h0, h1, h2, h3]
  · intro e h0
    simp only [update_graphs, generate_metric_graph, if_neg ht, h0]
  · intro g0 e h0 h1
    simp only [update_graphs, generate_metric_graph, if_neg ht, h0, h1]
  · intro g0 g1 e h0 h1 h2
    simp only [update_graphs, generate_metric_graph, if_neg ht, h0, h1, h2]
  · intro g0 g1 g2 e h0 h1 h2 h3
    simp only [update_graphs, generate_metric_graph, if_neg ht, h0, h1, h2, h3]

/-- C2 witness: the amended success-path count at a concrete populated input
whose four panel builds all succeed. -/
theorem populated_fetch_count_witness :
    (update_graphs okProvider "AAPL" 0 10 default_args 2).2 = 2 + 5 := by
  have h := ((populated_fetch_count_and_renders okProvider "AAPL" 0 10
    default_args 2 (by decide)).1)
    (dataFig [Trace.scatter [0, 1] [12, 17] "lines" theme.line] "Close" "AAPL")
    (dataFig [Trace.scatter [0, 1] [12, 17] "lines" theme.line] "Close" "AAPL")
    (dataFig [Trace.scatter [0, 1] [12, 17] "lines" theme.line] "Close" "AAPL")
    (dataFig [Trace.scatter [0, 1] [12, 17] "lines" theme.line] "Close" "AAPL")
    rfl rfl rfl rfl
  rw [h]

/-- C3 counterexample: on a non-empty series that has a Close column but no
Open column, candlestick rendering raises the pandas KeyError for the Open
column instead of returning the no-data placeholder. -/
theorem candlestick_missing_open_errors :
    buildFig closeOnlySeries "T" "Close" "candlestick" = Except.error "Open" ∧
    buildFig closeOnlySeries "T" "Close" "candlestick" ≠
      Except.ok (placeholderFig "Close" "T") := by
  exact ⟨rfl, by decide⟩

/-- C3 (amended): whenever the selected metric column is present but at least
one of the four columns Open, High, Low, Close is absent, candlestick
rendering raises an uncaught missing-column error (the pandas KeyError of the
first absent column, in access order) — it does not fall back to the no-data
placeholder. -/
theorem candlestick_missing_ohlc_errors (s : Series) (t metric : String)
    (hm : metric ∈ s.cols)
    (hmiss : "Open" ∉ s.cols ∨ "High" ∉ s.cols ∨ "Low" ∉ s.cols ∨
      "Close" ∉ s.cols) :
    ∃ e, buildFig s t metric "candlestick" = Except.error e := by
  unfold buildFig
  rw [if_pos hm]
  by_cases hO : "Open" ∈ s.cols
  · by_cases hH : "High" ∈ s.cols
    · by_cases hL : "Low" ∈ s.cols
      · by_cases hC : "Close" ∈ s.cols
        · rcases hmiss with h | h | h | h <;> [exact absurd hO h;
            exact absurd hH h; exact absurd hL h; exact absurd hC h]
        · exact ⟨"Close", by
            simp [Series.getCol, hO, hH, hL, hC, Except.bind, Except.map]⟩
      · exact ⟨"Low", by
          simp [Series.getCol, hO, hH, hL, Except.bind, Except.map]⟩
    · exact ⟨"High", by simp [Series.getCol, hO, hH, Except.bind, Except.map]⟩
  · exact ⟨"Open", by simp [Series.getCol, hO, Except.bind, Except.map]⟩

/-- C3 witness: the amended behavior at the concrete Close-only series. -/
theorem candlestick_missing_ohlc_witness :
    ∃ e, buildFig closeOnlySeries "T" "Close" "candlestick" =
      Except.error e :=
  candlestick_missing_ohlc_errors closeOnlySeries "T" "Close" (by decide)
    (Or.inl (by decide))

/-- C4 counterexample: on a non-empty series with a Close column and no
Volume column, bubble rendering raises the pandas KeyError for Volume — no
constant-marker-size fallback, no placeholder. -/
theorem bubble_missing_volume_errors_concrete :
    buildFig closeOnlySeries "T" "Close" "bubble" = Except.error "Volume" ∧
    buildFig closeOnlySeries "T" "Close" "bubble" ≠
      Except.ok (placeholderFig "Close" "T") := by
  exact ⟨rfl, by decide⟩

/-- C4 (amended): whenever the selected metric column is present but the
series has no Volume column, bubble rendering raises the uncaught Volume
KeyError; there is no fallback to a constant marker size. -/
theorem bubble_missing_volume_errors (s : Series) (t metric : String)
    (hm : metric ∈ s.cols) (hv : "Volume" ∉ s.cols) :
    buildFig s t metric "bubble" = Except.error "Volume" := by
  unfold buildFig
  rw [if_pos hm]
  simp [Series.getCol, hm, hv, Except.bind, Except.map]

/-- C4 witness: the amended behavior at the concrete Close-only series. -/
theorem bubble_missing_volume_witness :
    buildFig closeOnlySeries "T" "Close" "bubble" = Except.error "Volume" :=
  bubble_missing_volume_errors closeOnlySeries "T" "Close" (by decide)
    (by decide)

/-- C5 counterexample: when the selected metric is present in the series,
choropleth rendering returns the empty-bodied figure with the regular
"{metric} for {ticker}" data layout, not the no-data placeholder the claim
states. -/
theorem choropleth_present_metric_not_placeholder :
    buildFig closeOnlySeries "T" "Close" "choropleth" =
      Except.ok (dataFig [] "Close" "T") ∧
    dataFig [] "Close" "T" ≠ placeholderFig "Close" "T" := by
  exact ⟨rfl, by decide⟩

/-- C5 (amended): choropleth rendering never raises and never draws a trace:
its body is always empty. But it is the no-data placeholder only when the
selected metric column is absent; when the metric is present it carries the
regular "{metric} for {ticker}" data layout (with axis titles) instead. -/
theorem choropleth_empty_body (s : Series) (t metric : String) :
    buildFig s t metric "choropleth" =
      Except.ok (if metric ∈ s.cols then dataFig [] metric t
        else placeholderFig metric t) := by
  unfold buildFig
  by_cases hm : metric ∈ s.cols
  · rw [if_pos hm, if_pos hm]
    rfl
  · rw [if_neg hm, if_neg hm]

/-- Whether a provider info call succeeded. -/
def infoOk (r : Except String (List (String × Value))) : Bool :=
  match r with
  | Except.ok _ => true
  | Except.error _ => false

/-- The columns of the provider's historical OHLCV dataframe. -/
def ohlcvCols : List String := ["Open", "High", "Low", "Close", "Volume"]

/-- C7: under the documented behavior of the external provider (a range with
start after end yields an empty history, per the spec's DateRange invariant),
a fetch over an inverted range never crashes, returns the empty series, and
its whole result is identical to the result of any fetch whose history came
back empty — the empty-series case. -/
theorem inverted_range_empty_equiv (p : Provider)
    (hp : ∀ t ds de, de < ds → p.history t ds de = Except.ok emptySeries)
    (t : String) (ds de : Nat) (hlt : de < ds)
    (ds2 de2 : Nat) (h2 : p.history t ds2 de2 = Except.ok emptySeries) :
    (get_stock_data p t ds de).1 = emptySeries ∧
    get_stock_data p t ds de = get_stock_data p t ds2 de2 := by
  unfold get_stock_data
  rw [hp t ds de hlt, h2]
  refine ⟨?_, rfl⟩
  cases p.info t <;> rfl

/-- C7 witness: the inverted range 5..3 against a provider that returns the
empty series, compared with the in-order range 0..9. -/
theorem inverted_range_empty_equiv_witness :
    (get_stock_data emptyProvider "A" 5 3).1 = emptySeries ∧
    get_stock_data emptyProvider "A" 5 3 =
      get_stock_data emptyProvider "A" 0 9 :=
  inverted_range_empty_equiv emptyProvider (fun _ _ _ _ => rfl) "A" 5 3
    (by decide) 0 9 rfl

/-- C8: the renderer is pure — the figure is determined by the fetched series
(the provider's response to the one request made and whether its info call
succeeded), the symbol, the metric and the chart-type; no hidden state
interferes: two runs under different call counters, and under providers that
agree on that request, produce identical chart descriptions. -/
theorem renderer_no_hidden_state (p1 p2 : Provider)
    (t metric chart_type : String) (ds de : Nat) (c1 c2 : Nat)
    (hh : p1.history t ds de = p2.history t ds de)
    (hi : infoOk (p1.info t) = infoOk (p2.info t)) :
    (generate_metric_graph p1 t metric chart_type ds de c1).1 =
      (generate_metric_graph p2 t metric chart_type ds de c2).1 := by
  have hs : (get_stock_data p1 t ds de).1 = (get_stock_data p2 t ds de).1 := by
    unfold get_stock_data
    rw [hh]
    cases p2.history t ds de with
    | error e => rfl
    | ok hist =>
      cases h1 : p1.info t <;> cases h2 : p2.info t <;>
        simp [h1, h2, infoOk] at hi ⊢
  simp [generate_metric_graph, hs]

/-- C8 witness: the same provider under two different call counters. -/
theorem renderer_no_hidden_state_witness :
    (generate_metric_graph okProvider "AAPL" "Close" "lines" 0 10 0).1 =
      (generate_metric_graph okProvider "AAPL" "Close" "lines" 0 10 7).1 :=
  renderer_no_hidden_state okProvider okProvider "AAPL" "Close" "lines" 0 10
    0 7 rfl rfl

/-- C9: the three snapshot-only metrics offered by the dropdown — Market Cap,
PE Ratio, Dividend Yield — are never chartable: on any series whose columns
are the provider's historical OHLCV columns, selecting one of them yields the
no-data placeholder for every chart-type, because those names never occur as
series columns. -/
theorem snapshot_metrics_never_chartable (s : Series)
    (t metric chart_type : String) (hc : s.cols = ohlcvCols)
    (hm : metric = "Market Cap" ∨ metric = "PE Ratio" ∨
      metric = "Dividend Yield") :
    metric ∈ metric_options.map Prod.snd ∧
    buildFig s t metric chart_type = Except.ok (placeholderFig metric t) := by
  have hnotin : metric ∉ s.cols := by
    rw [hc]; rcases hm with rfl | rfl | rfl <;> decide
  refine ⟨?_, ?_⟩
  · rcases hm with rfl | rfl | rfl <;> decide
  · unfold buildFig; rw [if_neg hnotin]

/-- C9 witness: Market Cap over the sample OHLCV series with a line chart. -/
theorem snapshot_metrics_never_chartable_witness :
    "Market Cap" ∈ metric_options.map Prod.snd ∧
    buildFig sampleSeries "AAPL" "Market Cap" "lines" =
      Except.ok (placeholderFig "Market Cap" "AAPL") :=
  snapshot_metrics_never_chartable sampleSeries "AAPL" "Market Cap" "lines"
    rfl (Or.inl rfl)

end TypingMetric2
